import Mathlib

/-!
Verification of the ng-floating-ui repository (an Angular tooltip/floating-panel
directive) against its natural-language specification.

The development shallowly embeds the TypeScript sources:

* the global configuration provider (tokens file: DEFAULT_OPTIONS,
  provideFloatingUiOptions, the FLOATING_UI_OPTIONS token factory);
* the arrow-positioning logic of setArrowPosition / setTooltipPosition;
* the native-gesture style overrides of disableNativeGestures;
* the content-resolution branches of createElement in the two directive
  revisions (the earlier one supporting sub-component content, the final one
  supporting TemplateRef | string | number only);
* the final revision of FloatingDirective as an explicit state machine:
  its fields (visibility signal, element/view/cleanup references, the
  eventListeners tuple list, the long-press timeout) together with the parts
  of the browser world it mutates (listeners attached to the trigger element,
  panel nodes in document.body, live embedded views, active autoUpdate
  subscriptions, pending timers).

JavaScript object identities (DOM elements, closures, views, timers) are
modelled as natural-number ids drawn from a fresh counter; sets of live
objects are lists of ids without duplicates, and removal is by filtering,
matching the idempotent semantics of Element.remove, ViewRef.destroy and
clearTimeout on already-removed objects.
-/

namespace NgFloatingUi

/-! ## Global configuration provider (tokens file) -/

/-- GlobalOptions from types.ts: all three fields present. -/
structure GlobalOptions where
  arrowHeight : Nat
  arrowPadding : Nat
  longPressDelay : Nat
deriving DecidableEq, Repr

/-- A caller-supplied override object: a JS object in which each of the three
fields may be present or absent. -/
structure PartialOptions where
  arrowHeight : Option Nat := none
  arrowPadding : Option Nat := none
  longPressDelay : Option Nat := none
deriving DecidableEq, Repr

/-- DEFAULT_OPTIONS from the tokens file. -/
def DEFAULT_OPTIONS : GlobalOptions :=
  { arrowHeight := 4, arrowPadding := 5, longPressDelay := 500 }

/-- JS object-spread semantics of `\x7b ...base, ...o \x7d`: a field present in
the second object wins, an absent one falls back to the first. -/
def spreadMerge (base : GlobalOptions) (o : PartialOptions) : GlobalOptions :=
  { arrowHeight := o.arrowHeight.getD base.arrowHeight
    arrowPadding := o.arrowPadding.getD base.arrowPadding
    longPressDelay := o.longPressDelay.getD base.longPressDelay }

/-- provideFloatingUiOptions(options): provides the spread of the caller's
overrides over DEFAULT_OPTIONS as the FLOATING_UI_OPTIONS value. -/
def provideFloatingUiOptions (options : PartialOptions) : GlobalOptions :=
  spreadMerge DEFAULT_OPTIONS options

/-- The factory of the FLOATING_UI_OPTIONS injection token, used when no
provider was installed at all: it yields DEFAULT_OPTIONS. -/
def floatingUiOptionsFactory : GlobalOptions := DEFAULT_OPTIONS

/-! ## Arrow positioning (setTooltipPosition / setArrowPosition) -/

/-- The inline style properties of the arrow element that setArrowPosition
assigns (left, top, right, bottom). -/
structure ArrowStyle where
  left : String
  top : String
  right : String
  bottom : String
deriving DecidableEq, Repr

/-- The twelve placement variants the positioning engine can return
(as enumerated in the demo application). -/
def allPlacements : List String :=
  ["top", "top-start", "top-end",
   "right", "right-start", "right-end",
   "bottom", "bottom-start", "bottom-end",
   "left", "left-start", "left-end"]

/-- setTooltipPosition computes the tooltip side as placement.split('-')[0],
that is, the prefix of the placement string up to the first dash (the whole
string when it has no dash). -/
def primaryTooltipSide (placement : String) : String :=
  String.mk (placement.toList.takeWhile (fun c => c ≠ '-'))

/-- The side-mapping object literal inside setArrowPosition:
top to bottom, right to left, bottom to top, left to right;
any other key yields undefined. -/
def arrowSideOf (tooltipSide : String) : Option String :=
  if tooltipSide = "top" then some "bottom"
  else if tooltipSide = "right" then some "left"
  else if tooltipSide = "bottom" then some "top"
  else if tooltipSide = "left" then some "right"
  else none

/-- Rendering of an optional middleware coordinate, as in the source:
a number renders as a pixel string, null or undefined renders as ''. -/
def pxOpt (v : Option Int) : String :=
  match v with
  | some x => toString x ++ "px"
  | none => ""

/-- Assignment of a computed-key style property, as in the
Object.assign computed key of setArrowPosition. -/
def assignSide (st : ArrowStyle) (side val : String) : ArrowStyle :=
  if side = "left" then { st with left := val }
  else if side = "top" then { st with top := val }
  else if side = "right" then { st with right := val }
  else if side = "bottom" then { st with bottom := val }
  else st

/-- Read a style property back by its CSS name. -/
def sideGet (st : ArrowStyle) (side : String) : String :=
  if side = "left" then st.left
  else if side = "top" then st.top
  else if side = "right" then st.right
  else if side = "bottom" then st.bottom
  else ""

/-- setArrowPosition(arrowEl, tooltipSide, arrowMiddleware): Object.assign on
the arrow's style, in object-literal order: left from the middleware x (or ''),
top from the middleware y (or ''), right and bottom cleared, and then the
computed key [arrowSide] set to -arrowHeight pixels (the computed key is
evaluated last, so it overrides an earlier property of the same name). -/
def setArrowPosition (arrowHeight : Nat) (tooltipSide : String)
    (arrowX arrowY : Option Int) : ArrowStyle :=
  let arrowSide := arrowSideOf tooltipSide
  let base : ArrowStyle :=
    { left := pxOpt arrowX, top := pxOpt arrowY, right := "", bottom := "" }
  assignSide base (arrowSide.getD "") ("-" ++ toString arrowHeight ++ "px")

/-! ## Native gesture suppression (disableNativeGestures) -/

/-- The trigger element attributes disableNativeGestures inspects. -/
structure TriggerEl where
  nodeName : String
  draggable : Bool
deriving DecidableEq, Repr

/-- The style properties disableNativeGestures can write; none means the
property was never assigned by the directive. -/
structure GestureStyle where
  userSelect : Option String := none
  msUserSelect : Option String := none
  webkitUserSelect : Option String := none
  MozUserSelect : Option String := none
  webkitUserDrag : Option String := none
  touchAction : Option String := none
  webkitTapHighlightColor : Option String := none
deriving DecidableEq, Repr

/-- disableNativeGestures from the final directive revision: user-select (all
vendor variants) is set to none unless the trigger is an INPUT or TEXTAREA;
webkit-user-drag is set to none when the element is not draggable; touch-action
is always set to none and webkit-tap-highlight-color to transparent. -/
def disableNativeGestures (el : TriggerEl) (st : GestureStyle) : GestureStyle :=
  let st :=
    if el.nodeName ≠ "INPUT" ∧ el.nodeName ≠ "TEXTAREA" then
      { st with userSelect := some "none", msUserSelect := some "none",
                webkitUserSelect := some "none", MozUserSelect := some "none" }
    else st
  let st :=
    if ¬el.draggable then { st with webkitUserDrag := some "none" } else st
  { st with touchAction := some "none",
            webkitTapHighlightColor := some "transparent" }

/-- A style object on which the directive has not yet written anything. -/
def untouchedStyle : GestureStyle := {}

/-! ## Content resolution in createElement (both directive revisions) -/

/-- The runtime value of the content input. The earlier revision's type is
Type(any) | TemplateRef(any) | string | number; the final revision's declared
type drops the component alternative, but at runtime a component class can
still be passed since TypeScript types are erased. -/
inductive TooltipContentVal where
  | template (id : Nat)
  | str (s : String)
  | num (n : Int)
  | component (cls : Nat)
deriving DecidableEq, Repr

/-- The observable effects of the content-resolution branch of createElement. -/
structure CreateEffects where
  embeddedViewCreated : Bool
  textContentSet : Bool
  componentCreated : Bool
  usedEnvironmentInjector : Bool
  attachedToApplicationRef : Bool
  hostElementAppendedToContent : Bool
deriving DecidableEq, Repr

/-- createElement content resolution in the earlier revision (the one with
sub-component support): TemplateRef content becomes an embedded view; string
or number content is stringified into textContent; anything else is treated as
a component class, instantiated with createComponent against the environment
injector, its hostView attached via appRef.attachView, and its host element
appended into the tooltip content element. -/
def createElementContentV2 (c : TooltipContentVal) : CreateEffects :=
  match c with
  | .template _ =>
      { embeddedViewCreated := true, textContentSet := false,
        componentCreated := false, usedEnvironmentInjector := false,
        attachedToApplicationRef := false, hostElementAppendedToContent := false }
  | .str _ | .num _ =>
      { embeddedViewCreated := false, textContentSet := true,
        componentCreated := false, usedEnvironmentInjector := false,
        attachedToApplicationRef := false, hostElementAppendedToContent := false }
  | .component _ =>
      { embeddedViewCreated := false, textContentSet := false,
        componentCreated := true, usedEnvironmentInjector := true,
        attachedToApplicationRef := true, hostElementAppendedToContent := true }

/-- createElement content resolution in the final revision: TemplateRef content
becomes an embedded view; every other value, a component class included, falls
into the else branch that assigns String(this.content) to textContent. -/
def createElementContentV3 (c : TooltipContentVal) : CreateEffects :=
  match c with
  | .template _ =>
      { embeddedViewCreated := true, textContentSet := false,
        componentCreated := false, usedEnvironmentInjector := false,
        attachedToApplicationRef := false, hostElementAppendedToContent := false }
  | _ =>
      { embeddedViewCreated := false, textContentSet := true,
        componentCreated := false, usedEnvironmentInjector := false,
        attachedToApplicationRef := false, hostElementAppendedToContent := false }

/-! ## The final directive revision as a state machine -/

/-- The trigger input: 'click' | 'hover'. -/
inductive TooltipTrigger where
  | click
  | hover
deriving DecidableEq, Repr

/-- One entry of the directive's eventListeners array: the event name and the
identity of the closure pushed by addListener (every addListener call creates a
fresh closure), together with the passive flag of its options object. -/
structure ListenerEntry where
  event : String
  hid : Nat
  passive : Bool
deriving DecidableEq, Repr

/-- The state of one FloatingDirective instance (final revision) together with
the browser-world resources it owns. Inputs the directive never reads
(showDelay, hideDelay, interactive, placement, offset, cssModifier) are
omitted; supportsMouse is the value of the supportsMouseEvents() environment
probe, and contentIsTemplate tells whether the content input is a TemplateRef.
The world components are: attached (the listeners currently registered on the
trigger element), bodyPanels (tooltip container nodes in document.body),
liveViews (embedded or component views not yet destroyed), activeSubs
(autoUpdate subscriptions not yet cleaned up) and pendingTimers (setTimeout
timers neither fired nor cleared). fresh is a counter allocating object
identities. -/
structure DirState where
  trigger : TooltipTrigger
  manual : Bool
  disabled : Bool
  isServer : Bool
  supportsMouse : Bool
  showArrow : Bool
  contentIsTemplate : Bool
  isVisible : Bool
  tooltipElRef : Option Nat
  embdedViewRef : Option Nat
  componentRef : Option Nat
  cleanupFn : Option Nat
  eventListeners : List ListenerEntry
  touchstartTimeout : Option Nat
  gesturesDisabled : Bool
  attached : List ListenerEntry
  bodyPanels : List Nat
  liveViews : List Nat
  activeSubs : List Nat
  pendingTimers : List Nat
  fresh : Nat
deriving DecidableEq, Repr

/-- Removal of an optionally-referenced object id from a list of live ids.
Used for Element.remove, ViewRef.destroy, the autoUpdate cleanup function and
clearTimeout: each is a no-op when the reference is absent or the object is
already gone. -/
def removeOpt (o : Option Nat) (l : List Nat) : List Nat :=
  match o with
  | some x => l.filter (fun y => y ≠ x)
  | none => l

/-- clearTimeout(this.touchstartTimeout): cancels the referenced timer if it
is still pending; the field itself is not overwritten. -/
def clearTimeout (s : DirState) : DirState :=
  { s with pendingTimers := removeOpt s.touchstartTimeout s.pendingTimers }

/-- destroy(): this.embdedViewRef && destroy; this.componentRef && destroy;
this.tooltipElRef && remove; this.cleanupFn && call; clearTimeout(timeout).
None of the references is nulled. -/
def destroy (s : DirState) : DirState :=
  { s with
    liveViews := removeOpt s.componentRef (removeOpt s.embdedViewRef s.liveViews)
    bodyPanels := removeOpt s.tooltipElRef s.bodyPanels
    activeSubs := removeOpt s.cleanupFn s.activeSubs
    pendingTimers := removeOpt s.touchstartTimeout s.pendingTimers }

/-- createElement(createArrow): builds the tooltip container (with content and
optional arrow as children, so only the container is a body-level node),
creating an embedded view when the content is a TemplateRef, and appends the
container to document.body. The container id ends in tooltipElRef (assigned at
the end of render in the source, folded in here). -/
def createElement (s : DirState) : DirState :=
  let p := s.fresh
  let s1 : DirState := { s with fresh := s.fresh + 1 }
  let s2 : DirState :=
    if s1.contentIsTemplate then
      { s1 with embdedViewRef := some s1.fresh,
                liveViews := s1.liveViews ++ [s1.fresh],
                fresh := s1.fresh + 1 }
    else s1
  { s2 with bodyPanels := s2.bodyPanels ++ [p], tooltipElRef := some p }

/-- render(): createElement, then subscribe to autoUpdate and keep its cleanup
function in cleanupFn. -/
def render (s : DirState) : DirState :=
  let s1 := createElement s
  { s1 with cleanupFn := some s1.fresh,
            activeSubs := s1.activeSubs ++ [s1.fresh],
            fresh := s1.fresh + 1 }

/-- show(): early return when already visible, otherwise set the visibility
signal, destroy, render. -/
def «show» (s : DirState) : DirState :=
  if s.isVisible then s
  else render (destroy { s with isVisible := true })

/-- hide(): early return when already hidden, otherwise clear the visibility
signal and destroy. -/
def hide (s : DirState) : DirState :=
  if !s.isVisible then s
  else destroy { s with isVisible := false }

/-- toggle(): hide when visible, show otherwise. -/
def toggle (s : DirState) : DirState :=
  if s.isVisible then hide s else «show» s

/-- addListener(event, callback): pushes the (event, callback, options) tuple
onto eventListeners; the callback is a fresh closure and the options object is
always passive: true. Nothing is attached to the DOM here. -/
def addListener (s : DirState) (event : String) : DirState :=
  { s with eventListeners := s.eventListeners ++ [⟨event, s.fresh, true⟩],
           fresh := s.fresh + 1 }

/-- setupFocusAndBlurEvents(): focus shows, blur hides. -/
def setupFocusAndBlurEvents (s : DirState) : DirState :=
  addListener (addListener s "focus") "blur"

/-- setupClickEvents(): click toggles. -/
def setupClickEvents (s : DirState) : DirState :=
  addListener s "click"

/-- setupMouseEvents(): mouseenter shows, mouseleave hides, wheel hides when
the pointer is no longer over the trigger. -/
def setupMouseEvents (s : DirState) : DirState :=
  addListener (addListener (addListener s "mouseenter") "mouseleave") "wheel"

/-- setupTouchEvents(): disables native gestures on the trigger, then registers
touchstart (arming the long-press timer) and touchend/touchcancel (both the
same listener cancelling the timer and hiding). -/
def setupTouchEvents (s : DirState) : DirState :=
  let s1 : DirState := { s with gesturesDisabled := true }
  addListener (addListener (addListener s1 "touchstart") "touchend") "touchcancel"

/-- addEventListener semantics on the trigger element: a listener identical in
event name and callback identity to an already-registered one is not added
again (all registrations here are non-capturing). -/
def domAddEventListener (att : List ListenerEntry) (l : ListenerEntry) :
    List ListenerEntry :=
  if att.any (fun a => a.event = l.event ∧ a.hid = l.hid) then att
  else att ++ [l]

/-- setupListeners(): registers the gesture set for the trigger mode and
platform into eventListeners, then attaches every tuple of eventListeners to
the trigger element with addEventListener. Note the forEach runs over the
whole eventListeners array, tuples recorded by earlier setups included. -/
def setupListeners (s : DirState) : DirState :=
  let s1 :=
    if s.trigger = TooltipTrigger.click then setupClickEvents s
    else
      let s2 := setupFocusAndBlurEvents s
      if s2.supportsMouse then setupMouseEvents s2 else setupTouchEvents s2
  { s1 with attached := s1.eventListeners.foldl domAddEventListener s1.attached }

/-- removeListeners(): detaches every tuple recorded in eventListeners from
the trigger element with the same callback and options it was registered with.
The eventListeners array itself is not cleared. -/
def removeListeners (s : DirState) : DirState :=
  let detach := fun (att : List ListenerEntry) (l : ListenerEntry) =>
    att.filter (fun a => ¬(a.event = l.event ∧ a.hid = l.hid))
  { s with attached := s.eventListeners.foldl detach s.attached }

/-- ngAfterViewInit(): no listener setup in manual mode, on the server
platform, or when initially disabled. -/
def ngAfterViewInit (s : DirState) : DirState :=
  if s.manual ∨ s.isServer ∨ s.disabled then s else setupListeners s

/-- ngOnChanges for a non-first change of the disabled input to value v (the
input property is updated before the hook runs). In manual mode or on the
server the hook returns immediately; otherwise becoming disabled destroys the
panel when visible and removes the listeners, and becoming enabled re-runs
setupListeners. -/
def ngOnChanges (s : DirState) (v : Bool) : DirState :=
  let s1 : DirState := { s with disabled := v }
  if s1.manual ∨ s1.isServer then s1
  else if s1.disabled then
    let s2 := if s1.isVisible then destroy s1 else s1
    removeListeners s2
  else setupListeners s1

/-- ngOnDestroy(): destroy, then removeListeners. -/
def ngOnDestroy (s : DirState) : DirState :=
  removeListeners (destroy s)

/-- The touchstart listener body: clear any previous long-press timer and arm
a fresh one that will call show after options.longPressDelay. -/
def touchstartBehavior (s : DirState) : DirState :=
  let s1 := clearTimeout s
  { s1 with touchstartTimeout := some s1.fresh,
            pendingTimers := s1.pendingTimers ++ [s1.fresh],
            fresh := s1.fresh + 1 }

/-- The touchend/touchcancel listener body: clear the long-press timer and
hide. -/
def touchendBehavior (s : DirState) : DirState :=
  hide (clearTimeout s)

/-- The wheel listener body: when visible, hide unless the element under the
pointer is the trigger or one of its descendants (overTrigger is that
environment-provided fact). -/
def wheelBehavior (s : DirState) (overTrigger : Bool) : DirState :=
  if s.isVisible then (if overTrigger then s else hide s) else s

/-- The behavior of the listener registered for a given event name in the
final revision (every registered closure for one event name has the same
body). -/
def runHandler (name : String) (overTrigger : Bool) (s : DirState) : DirState :=
  if name = "focus" then «show» s
  else if name = "blur" then hide s
  else if name = "click" then toggle s
  else if name = "mouseenter" then «show» s
  else if name = "mouseleave" then hide s
  else if name = "wheel" then wheelBehavior s overTrigger
  else if name = "touchstart" then touchstartBehavior s
  else if name = "touchend" ∨ name = "touchcancel" then touchendBehavior s
  else s

/-- Dispatch of a DOM event on the trigger element: every attached listener
registered for that event name runs, in registration order. -/
def domEvent (name : String) (overTrigger : Bool) (s : DirState) : DirState :=
  (s.attached.filter (fun l => l.event = name)).foldl
    (fun st _ => runHandler name overTrigger st) s

/-- Firing of a setTimeout timer: possible only while the timer is pending;
it leaves the pending set and its callback (show) runs. -/
def fireTimer (t : Nat) (s : DirState) : DirState :=
  if s.pendingTimers.contains t then
    «show» { s with pendingTimers := s.pendingTimers.filter (fun x => x ≠ t) }
  else s

/-- The events a directive instance can experience. -/
inductive DirEvent where
  | afterViewInit
  | changeDisabled (v : Bool)
  | apiShow
  | apiHide
  | apiToggle
  | dom (name : String) (overTrigger : Bool)
  | timer (t : Nat)
  | onDestroy
deriving DecidableEq, Repr

/-- One step of the directive's event-driven execution. -/
def step (e : DirEvent) (s : DirState) : DirState :=
  match e with
  | .afterViewInit => ngAfterViewInit s
  | .changeDisabled v => ngOnChanges s v
  | .apiShow => «show» s
  | .apiHide => hide s
  | .apiToggle => toggle s
  | .dom n over => domEvent n over s
  | .timer t => fireTimer t s
  | .onDestroy => ngOnDestroy s

/-- Execution of a sequence of events. -/
def run (evs : List DirEvent) (s : DirState) : DirState :=
  evs.foldl (fun st e => step e st) s

/-- A freshly constructed directive instance: inputs as given, all defaults,
nothing created, nothing attached. -/
def initState (trigger : TooltipTrigger)
    (manual disabled isServer supportsMouse contentIsTemplate : Bool) : DirState :=
  { trigger := trigger, manual := manual, disabled := disabled,
    isServer := isServer, supportsMouse := supportsMouse,
    showArrow := true, contentIsTemplate := contentIsTemplate,
    isVisible := false, tooltipElRef := none, embdedViewRef := none,
    componentRef := none, cleanupFn := none, eventListeners := [],
    touchstartTimeout := none, gesturesDisabled := false, attached := [],
    bodyPanels := [], liveViews := [], activeSubs := [], pendingTimers := [],
    fresh := 0 }

/-! ## Invariants of the directive state machine -/

/-- At most one panel: the instance's panel nodes in document.body are either
none, or exactly the one referenced by tooltipElRef. -/
def PanelInv (s : DirState) : Prop :=
  s.bodyPanels = [] ∨ s.bodyPanels = s.tooltipElRef.toList

/-- At most one long-press timer: the pending timers of the instance are
either none, or exactly the one referenced by touchstartTimeout. -/
def TimerInv (s : DirState) : Prop :=
  s.pendingTimers = [] ∨ s.pendingTimers = s.touchstartTimeout.toList

/-! ### Basic lemmas about removal of live objects -/

theorem removeOpt_nil (o : Option Nat) : removeOpt o [] = [] := by
  cases o <;> rfl

theorem removeOpt_idem (o : Option Nat) (l : List Nat) :
    removeOpt o (removeOpt o l) = removeOpt o l := by
  cases o with
  | none => rfl
  | some x => simp [removeOpt, List.filter_filter]

theorem removeOpt_comm (a b : Option Nat) (l : List Nat) :
    removeOpt a (removeOpt b l) = removeOpt b (removeOpt a l) := by
  cases a with
  | none => rfl
  | some x =>
    cases b with
    | none => rfl
    | some y => simp [removeOpt, List.filter_filter, Bool.and_comm]

theorem removeOpt_pair_idem (a b : Option Nat) (l : List Nat) :
    removeOpt a (removeOpt b (removeOpt a (removeOpt b l)))
      = removeOpt a (removeOpt b l) := by
  rw [removeOpt_comm b a (removeOpt b l), removeOpt_idem, removeOpt_idem]

theorem removeOpt_singleton_self (t : Nat) : removeOpt (some t) [t] = [] := by
  simp [removeOpt]

/-! ### Visibility and teardown lemmas -/

theorem show_isVisible (s : DirState) : («show» s).isVisible = true := by
  by_cases h : s.isVisible
  · simp [«show», h]
  · simp only [«show», h, if_neg, Bool.false_eq_true, if_false, render, createElement, destroy]
    split <;> rfl

theorem hide_isVisible (s : DirState) : (hide s).isVisible = false := by
  by_cases h : s.isVisible
  · simp [hide, h, destroy]
  · simp only [hide] at *
    simp [h]

theorem show_of_visible (s : DirState) (h : s.isVisible = true) : «show» s = s := by
  simp [«show», h]

theorem hide_of_hidden (s : DirState) (h : s.isVisible = false) : hide s = s := by
  simp [hide, h]

theorem show_show (s : DirState) : «show» («show» s) = «show» s :=
  show_of_visible _ (show_isVisible s)

theorem hide_hide (s : DirState) : hide (hide s) = hide s :=
  hide_of_hidden _ (hide_isVisible s)

theorem destroy_destroy (s : DirState) : destroy (destroy s) = destroy s := by
  simp [destroy, removeOpt_idem, removeOpt_pair_idem]

theorem destroy_of_clean (s : DirState)
    (h1 : s.tooltipElRef = none) (h2 : s.embdedViewRef = none)
    (h3 : s.componentRef = none) (h4 : s.cleanupFn = none)
    (h5 : s.touchstartTimeout = none) : destroy s = s := by
  cases s
  simp_all [destroy, removeOpt]

/-! ### Panel invariant preservation -/

theorem panelInv_of_fields {s t : DirState} (h : PanelInv s)
    (hb : t.bodyPanels = s.bodyPanels) (hr : t.tooltipElRef = s.tooltipElRef) :
    PanelInv t := by
  rcases h with h | h
  · exact Or.inl (hb.trans h)
  · exact Or.inr (by rw [hb, hr]; exact h)

theorem panelInv_length {s : DirState} (h : PanelInv s) :
    s.bodyPanels.length ≤ 1 := by
  rcases h with h | h
  · simp [h]
  · rw [h]; cases s.tooltipElRef <;> simp [Option.toList]

theorem destroy_bodyPanels {s : DirState} (h : PanelInv s) :
    (destroy s).bodyPanels = [] := by
  rcases h with h | h
  · show removeOpt s.tooltipElRef s.bodyPanels = []
    rw [h]; exact removeOpt_nil _
  · show removeOpt s.tooltipElRef s.bodyPanels = []
    rw [h]; cases s.tooltipElRef with
    | none => rfl
    | some p => exact removeOpt_singleton_self p

theorem render_bodyPanels (s : DirState) (h : s.bodyPanels = []) :
    (render s).bodyPanels = [s.fresh] ∧ (render s).tooltipElRef = some s.fresh := by
  simp only [render, createElement]
  split <;> simp_all

theorem panelInv_destroy {s : DirState} (h : PanelInv s) : PanelInv (destroy s) :=
  Or.inl (destroy_bodyPanels h)

theorem panelInv_show {s : DirState} (h : PanelInv s) : PanelInv («show» s) := by
  by_cases v : s.isVisible
  · simpa [«show», v] using h
  · simp only [«show», v, Bool.false_eq_true, if_false]
    have hd : PanelInv (destroy { s with isVisible := true }) :=
      panelInv_destroy (panelInv_of_fields h rfl rfl)
    have hn : (destroy { s with isVisible := true }).bodyPanels = [] :=
      destroy_bodyPanels (panelInv_of_fields h rfl rfl)
    have hr := render_bodyPanels _ hn
    exact Or.inr (by rw [hr.1, hr.2]; rfl)

theorem panelInv_hide {s : DirState} (h : PanelInv s) : PanelInv (hide s) := by
  by_cases v : s.isVisible
  · simp only [hide, v, if_true]
    exact panelInv_destroy (panelInv_of_fields h rfl rfl)
  · simpa [hide, v] using h

theorem panelInv_toggle {s : DirState} (h : PanelInv s) : PanelInv (toggle s) := by
  by_cases v : s.isVisible
  · simp only [toggle, v, if_true]; exact panelInv_hide h
  · simp only [toggle, v, Bool.false_eq_true, if_false]; exact panelInv_show h

/-! ### Timer invariant preservation -/

theorem timerInv_of_fields {s t : DirState} (h : TimerInv s)
    (hp : t.pendingTimers = s.pendingTimers)
    (ht : t.touchstartTimeout = s.touchstartTimeout) : TimerInv t := by
  rcases h with h | h
  · exact Or.inl (hp.trans h)
  · exact Or.inr (by rw [hp, ht]; exact h)

theorem clearTimeout_pendingTimers {s : DirState} (h : TimerInv s) :
    (clearTimeout s).pendingTimers = [] := by
  rcases h with h | h
  · show removeOpt s.touchstartTimeout s.pendingTimers = []
    rw [h]; exact removeOpt_nil _
  · show removeOpt s.touchstartTimeout s.pendingTimers = []
    rw [h]; cases s.touchstartTimeout with
    | none => rfl
    | some t => exact removeOpt_singleton_self t

theorem destroy_pendingTimers {s : DirState} (h : TimerInv s) :
    (destroy s).pendingTimers = [] :=
  clearTimeout_pendingTimers h

theorem render_pendingTimers (s : DirState) :
    (render s).pendingTimers = s.pendingTimers := by
  simp only [render, createElement]
  split <;> rfl

theorem render_touchstartTimeout (s : DirState) :
    (render s).touchstartTimeout = s.touchstartTimeout := by
  simp only [render, createElement]
  split <;> rfl

theorem timerInv_destroy {s : DirState} (h : TimerInv s) : TimerInv (destroy s) :=
  Or.inl (destroy_pendingTimers h)

theorem timerInv_show {s : DirState} (h : TimerInv s) : TimerInv («show» s) := by
  by_cases v : s.isVisible
  · simpa [«show», v] using h
  · simp only [«show», v, Bool.false_eq_true, if_false]
    have hd : (destroy { s with isVisible := true }).pendingTimers = [] :=
      destroy_pendingTimers (timerInv_of_fields h rfl rfl)
    exact Or.inl ((render_pendingTimers _).trans hd)

theorem timerInv_hide {s : DirState} (h : TimerInv s) : TimerInv (hide s) := by
  by_cases v : s.isVisible
  · simp only [hide, v, if_true]
    exact timerInv_destroy (timerInv_of_fields h rfl rfl)
  · simpa [hide, v] using h

theorem timerInv_toggle {s : DirState} (h : TimerInv s) : TimerInv (toggle s) := by
  by_cases v : s.isVisible
  · simp only [toggle, v, if_true]; exact timerInv_hide h
  · simp only [toggle, v, Bool.false_eq_true, if_false]; exact timerInv_show h

theorem timerInv_clearTimeout {s : DirState} (h : TimerInv s) :
    TimerInv (clearTimeout s) :=
  Or.inl (clearTimeout_pendingTimers h)

theorem timerInv_touchstart {s : DirState} (h : TimerInv s) :
    TimerInv (touchstartBehavior s) := by
  have hc := clearTimeout_pendingTimers h
  simp only [touchstartBehavior]
  exact Or.inr (by simp [hc, Option.toList])

theorem timerInv_touchend {s : DirState} (h : TimerInv s) :
    TimerInv (touchendBehavior s) :=
  timerInv_hide (timerInv_clearTimeout h)

theorem timerInv_wheel {s : DirState} (h : TimerInv s) (over : Bool) :
    TimerInv (wheelBehavior s over) := by
  simp only [wheelBehavior]
  split
  · split
    · exact h
    · exact timerInv_hide h
  · exact h

theorem timerInv_fireTimer {s : DirState} (h : TimerInv s) (t : Nat) :
    TimerInv (fireTimer t s) := by
  unfold fireTimer
  split
  case isTrue hc =>
    apply timerInv_show
    refine Or.inl ?_
    show (s.pendingTimers.filter (fun x => x ≠ t)) = []
    rcases h with hp | hp
    · rw [hp]; rfl
    · rw [hp] at hc ⊢
      cases hm : s.touchstartTimeout with
      | none => rw [hm] at hc; simp [Option.toList] at hc
      | some u =>
        rw [hm] at hc
        have ht : t = u := by simpa using hc
        subst ht
        simp
  case isFalse hc => exact h

/-! ### Preservation through handler dispatch and lifecycle hooks -/

theorem foldl_preserve {α : Type} (P : DirState → Prop) (f : DirState → DirState)
    (hf : ∀ t, P t → P (f t)) :
    ∀ (l : List α) (s : DirState), P s → P (l.foldl (fun st _ => f st) s)
  | [], _, h => h
  | _ :: l, s, h => foldl_preserve P f hf l (f s) (hf s h)

theorem panelInv_runHandler {s : DirState} (h : PanelInv s)
    (name : String) (over : Bool) : PanelInv (runHandler name over s) := by
  unfold runHandler
  split_ifs
  · exact panelInv_show h
  · exact panelInv_hide h
  · exact panelInv_toggle h
  · exact panelInv_show h
  · exact panelInv_hide h
  · unfold wheelBehavior
    split
    · split
      · exact h
      · exact panelInv_hide h
    · exact h
  · exact panelInv_of_fields h rfl rfl
  · exact panelInv_hide (panelInv_of_fields h rfl rfl)
  · exact h

theorem timerInv_runHandler {s : DirState} (h : TimerInv s)
    (name : String) (over : Bool) : TimerInv (runHandler name over s) := by
  unfold runHandler
  split_ifs
  · exact timerInv_show h
  · exact timerInv_hide h
  · exact timerInv_toggle h
  · exact timerInv_show h
  · exact timerInv_hide h
  · exact timerInv_wheel h over
  · exact timerInv_touchstart h
  · exact timerInv_touchend h
  · exact h

theorem panelInv_domEvent {s : DirState} (h : PanelInv s)
    (name : String) (over : Bool) : PanelInv (domEvent name over s) :=
  foldl_preserve PanelInv (runHandler name over)
    (fun _ ht => panelInv_runHandler ht name over) _ s h

theorem timerInv_domEvent {s : DirState} (h : TimerInv s)
    (name : String) (over : Bool) : TimerInv (domEvent name over s) :=
  foldl_preserve TimerInv (runHandler name over)
    (fun _ ht => timerInv_runHandler ht name over) _ s h

theorem setupListeners_bodyPanels (s : DirState) :
    (setupListeners s).bodyPanels = s.bodyPanels ∧
    (setupListeners s).tooltipElRef = s.tooltipElRef ∧
    (setupListeners s).pendingTimers = s.pendingTimers ∧
    (setupListeners s).touchstartTimeout = s.touchstartTimeout := by
  unfold setupListeners setupClickEvents setupFocusAndBlurEvents setupMouseEvents
    setupTouchEvents addListener
  dsimp only
  split
  · exact ⟨rfl, rfl, rfl, rfl⟩
  · split <;> exact ⟨rfl, rfl, rfl, rfl⟩

theorem panelInv_setupListeners {s : DirState} (h : PanelInv s) :
    PanelInv (setupListeners s) :=
  panelInv_of_fields h (setupListeners_bodyPanels s).1 (setupListeners_bodyPanels s).2.1

theorem timerInv_setupListeners {s : DirState} (h : TimerInv s) :
    TimerInv (setupListeners s) :=
  timerInv_of_fields h (setupListeners_bodyPanels s).2.2.1
    (setupListeners_bodyPanels s).2.2.2

theorem panelInv_removeListeners {s : DirState} (h : PanelInv s) :
    PanelInv (removeListeners s) :=
  panelInv_of_fields h rfl rfl

theorem timerInv_removeListeners {s : DirState} (h : TimerInv s) :
    TimerInv (removeListeners s) :=
  timerInv_of_fields h rfl rfl

theorem panelInv_step {s : DirState} (h : PanelInv s) (e : DirEvent) :
    PanelInv (step e s) := by
  cases e with
  | afterViewInit =>
    show PanelInv (ngAfterViewInit s)
    unfold ngAfterViewInit
    split
    · exact h
    · exact panelInv_setupListeners h
  | changeDisabled v =>
    show PanelInv (ngOnChanges s v)
    unfold ngOnChanges
    have h1 : PanelInv { s with disabled := v } := panelInv_of_fields h rfl rfl
    dsimp only
    split
    · exact h1
    · split
      · apply panelInv_removeListeners
        split
        · exact panelInv_destroy h1
        · exact h1
      · exact panelInv_setupListeners h1
  | apiShow => exact panelInv_show h
  | apiHide => exact panelInv_hide h
  | apiToggle => exact panelInv_toggle h
  | dom n over => exact panelInv_domEvent h n over
  | timer t =>
    show PanelInv (fireTimer t s)
    unfold fireTimer
    split
    · exact panelInv_show (panelInv_of_fields h rfl rfl)
    · exact h
  | onDestroy => exact panelInv_removeListeners (panelInv_destroy h)

theorem timerInv_step {s : DirState} (h : TimerInv s) (e : DirEvent) :
    TimerInv (step e s) := by
  cases e with
  | afterViewInit =>
    show TimerInv (ngAfterViewInit s)
    unfold ngAfterViewInit
    split
    · exact h
    · exact timerInv_setupListeners h
  | changeDisabled v =>
    show TimerInv (ngOnChanges s v)
    unfold ngOnChanges
    have h1 : TimerInv { s with disabled := v } := timerInv_of_fields h rfl rfl
    dsimp only
    split
    · exact h1
    · split
      · apply timerInv_removeListeners
        split
        · exact timerInv_destroy h1
        · exact h1
      · exact timerInv_setupListeners h1
  | apiShow => exact timerInv_show h
  | apiHide => exact timerInv_hide h
  | apiToggle => exact timerInv_toggle h
  | dom n over => exact timerInv_domEvent h n over
  | timer t => exact timerInv_fireTimer h t
  | onDestroy => exact timerInv_removeListeners (timerInv_destroy h)

theorem panelInv_init (trigger : TooltipTrigger)
    (manual disabled isServer supportsMouse contentIsTemplate : Bool) :
    PanelInv (initState trigger manual disabled isServer supportsMouse contentIsTemplate) :=
  Or.inl rfl

theorem timerInv_init (trigger : TooltipTrigger)
    (manual disabled isServer supportsMouse contentIsTemplate : Bool) :
    TimerInv (initState trigger manual disabled isServer supportsMouse contentIsTemplate) :=
  Or.inl rfl

theorem panelInv_run {s : DirState} (h : PanelInv s) (evs : List DirEvent) :
    PanelInv (run evs s) := by
  induction evs generalizing s with
  | nil => exact h
  | cons e l ih => exact ih (panelInv_step h e)

theorem timerInv_run {s : DirState} (h : TimerInv s) (evs : List DirEvent) :
    TimerInv (run evs s) := by
  induction evs generalizing s with
  | nil => exact h
  | cons e l ih => exact ih (timerInv_step h e)

/-! ## Claim theorems -/

/-- C1: per directive instance at most one floating panel exists at any time:
show() while visible and hide() while hidden are no-ops (show and hide are
idempotent as state transformers), the panel list never holds more than one
panel, and two consecutive show() calls from a hidden state leave exactly one
panel. The hypothesis PanelInv is the at-most-one-panel shape of the state; it
holds initially and is preserved by every event (panelInv_init,
panelInv_step). -/
theorem C1_at_most_one_panel (s : DirState) (h : PanelInv s) :
    «show» («show» s) = «show» s ∧ hide (hide s) = hide s ∧
    («show» s).bodyPanels.length ≤ 1 ∧
    (s.isVisible = false → («show» («show» s)).bodyPanels.length = 1) := by
  refine ⟨show_show s, hide_hide s, panelInv_length (panelInv_show h), ?_⟩
  intro hv
  rw [show_show s]
  simp only [«show», hv, Bool.false_eq_true, if_false]
  have hd : (destroy { s with isVisible := true }).bodyPanels = [] :=
    destroy_bodyPanels (panelInv_of_fields h rfl rfl)
  rw [(render_bodyPanels _ hd).1]
  rfl

/-- Witness for C1 at a freshly created hover-mode instance. -/
theorem C1_at_most_one_panel_witness :
    PanelInv (initState TooltipTrigger.hover false false false true false) ∧
    (initState TooltipTrigger.hover false false false true false).isVisible = false ∧
    («show» («show» (initState TooltipTrigger.hover false false false true false))).bodyPanels.length = 1 :=
  ⟨panelInv_init TooltipTrigger.hover false false false true false, rfl,
    (C1_at_most_one_panel _
      (panelInv_init TooltipTrigger.hover false false false true false)).2.2.2 rfl⟩

/-- C2 (code evaluated at the failing input): on a mouse-platform hover
instance, after ngAfterViewInit, show(), and a non-first change of disabled to
true, the panel is destroyed and all listeners are detached, but the
visibility signal is still true: ngOnChanges calls destroy() instead of
hide(), so the claimed forced transition to the hidden state does not happen
and after re-enabling the flag still reads true. -/
theorem C2_disable_keeps_visible_flag :
    (let final := run
      [DirEvent.afterViewInit, DirEvent.apiShow, DirEvent.changeDisabled true]
      (initState TooltipTrigger.hover false false false true false)
     final.isVisible = true ∧ final.bodyPanels = [] ∧ final.attached = [] ∧
       (run [DirEvent.changeDisabled false]
         final).isVisible = true) := by
  decide

/-- C3 (code evaluated at the failing input): after one disable/re-enable
cycle on a mouse-platform hover instance, the focus and mouseenter gesture
events each have two attached handlers, not one: removeListeners never clears
the eventListeners array, so the re-enabling setupListeners re-attaches every
stale tuple besides the freshly pushed ones. -/
theorem C3_reenable_duplicates_listeners :
    (let final := run
      [DirEvent.afterViewInit, DirEvent.changeDisabled true,
       DirEvent.changeDisabled false]
      (initState TooltipTrigger.hover false false false true false)
     (final.attached.filter (fun l => l.event = "focus")).length = 2 ∧
       (final.attached.filter (fun l => l.event = "mouseenter")).length = 2 ∧
       final.eventListeners.length = 10) := by
  decide

/-- C4: the configuration provider merges a partial override object over the
hard-coded defaults arrowHeight=4, arrowPadding=5, longPressDelay=500: each
field present in the override replaces the default, each absent field keeps
it; the override with only arrowHeight=8 keeps arrowPadding=5 and
longPressDelay=500; and with no provider installed the token factory yields
exactly the defaults. -/
theorem C4_options_merge (o : PartialOptions) :
    (provideFloatingUiOptions o).arrowHeight = o.arrowHeight.getD 4 ∧
    (provideFloatingUiOptions o).arrowPadding = o.arrowPadding.getD 5 ∧
    (provideFloatingUiOptions o).longPressDelay = o.longPressDelay.getD 500 ∧
    provideFloatingUiOptions { arrowHeight := some 8 } =
      { arrowHeight := 8, arrowPadding := 5, longPressDelay := 500 } ∧
    floatingUiOptionsFactory =
      { arrowHeight := 4, arrowPadding := 5, longPressDelay := 500 } :=
  ⟨rfl, rfl, rfl, rfl, rfl⟩

/-- C5: for every one of the twelve placement variants, the arrow's cross-axis
middleware offset is applied (left for top/bottom placements, top for
left/right placements) and the perpendicular offset is set to exactly
-arrowHeight pixels on the side opposite the placement's primary side, with
the mapping top to bottom, bottom to top, left to right, right to left. -/
theorem C5_arrow_side_mapping (pl : String) (hpl : pl ∈ allPlacements)
    (h : Nat) (x y : Option Int) :
    ((primaryTooltipSide pl = "top" ∧
        arrowSideOf (primaryTooltipSide pl) = some "bottom") ∨
     (primaryTooltipSide pl = "bottom" ∧
        arrowSideOf (primaryTooltipSide pl) = some "top") ∨
     (primaryTooltipSide pl = "left" ∧
        arrowSideOf (primaryTooltipSide pl) = some "right") ∨
     (primaryTooltipSide pl = "right" ∧
        arrowSideOf (primaryTooltipSide pl) = some "left")) ∧
    sideGet (setArrowPosition h (primaryTooltipSide pl) x y)
        ((arrowSideOf (primaryTooltipSide pl)).getD "") =
      "-" ++ toString h ++ "px" ∧
    ((primaryTooltipSide pl = "top" ∨ primaryTooltipSide pl = "bottom") →
      (setArrowPosition h (primaryTooltipSide pl) x y).left = pxOpt x) ∧
    ((primaryTooltipSide pl = "left" ∨ primaryTooltipSide pl = "right") →
      (setArrowPosition h (primaryTooltipSide pl) x y).top = pxOpt y) := by
  fin_cases hpl <;>
    exact ⟨by decide, rfl,
      fun hc => by first | rfl | exact absurd hc (by decide),
      fun hc => by first | rfl | exact absurd hc (by decide)⟩

/-- Witness for C5 at placement top with arrowHeight 4 and a concrete
middleware offset. -/
theorem C5_arrow_side_mapping_witness :
    "top" ∈ allPlacements ∧
    sideGet (setArrowPosition 4 (primaryTooltipSide "top") (some 10) none)
        ((arrowSideOf (primaryTooltipSide "top")).getD "") =
      "-" ++ toString 4 ++ "px" ∧
    (setArrowPosition 4 (primaryTooltipSide "top") (some 10) none).left =
      pxOpt (some 10) :=
  ⟨by decide,
    (C5_arrow_side_mapping "top" (by decide) 4 (some 10) none).2.1,
    (C5_arrow_side_mapping "top" (by decide) 4 (some 10) none).2.2.1 (Or.inl rfl)⟩

/-- C6 counterexample: the claim that a subsequent hide() cancels a pending
long-press timer is false. On a touch-platform hover instance, after
ngAfterViewInit and a touchstart gesture a long-press timer (id 5) is pending
and the tooltip is hidden; calling hide() early-returns because the instance
is not visible, leaving the timer pending, and when it later fires a show
runs and a panel appears. -/
theorem C6_hide_does_not_cancel_pending_timer :
    (let final := run
      [DirEvent.afterViewInit, DirEvent.dom "touchstart" true, DirEvent.apiHide]
      (initState TooltipTrigger.hover false false false false false)
     final.pendingTimers = [5] ∧
       (step (DirEvent.timer 5) final).isVisible = true ∧
       (step (DirEvent.timer 5) final).bodyPanels.length = 1) := by
  decide

/-- C6 (amended): under the timer-shape invariant TimerInv (initially true and
preserved by every event: timerInv_init, timerInv_step), instance destruction
leaves no pending timer, and any timer firing after destruction is a no-op, so
no late show produces a panel; the touchend/touchcancel listener cancels the
pending timer, as does hide() when the instance is visible. A hide() call
while already hidden, however, early-returns and cancels nothing. -/
theorem C6_teardown_cancels_timer (s : DirState) (hInv : TimerInv s) :
    (ngOnDestroy s).pendingTimers = [] ∧
    (∀ t, fireTimer t (ngOnDestroy s) = ngOnDestroy s) ∧
    (touchendBehavior s).pendingTimers = [] ∧
    (s.isVisible = true → (hide s).pendingTimers = []) := by
  have hdp : (destroy s).pendingTimers = [] := destroy_pendingTimers hInv
  have hnd : (ngOnDestroy s).pendingTimers = [] := hdp
  refine ⟨hnd, ?_, ?_, ?_⟩
  · intro t
    unfold fireTimer
    rw [hnd]
    rfl
  · have hcp : (clearTimeout s).pendingTimers = [] := clearTimeout_pendingTimers hInv
    unfold touchendBehavior hide
    split
    · exact hcp
    · show removeOpt _ (clearTimeout s).pendingTimers = []
      rw [hcp]
      exact removeOpt_nil _
  · intro hv
    unfold hide
    rw [hv]
    simp only [Bool.not_true, Bool.false_eq_true, if_false]
    exact destroy_pendingTimers (timerInv_of_fields hInv rfl rfl)

/-- Witness for C6 (amended) on a touch instance with an armed timer. -/
theorem C6_teardown_cancels_timer_witness :
    (let armed := run
      [DirEvent.afterViewInit, DirEvent.dom "touchstart" true]
      (initState TooltipTrigger.hover false false false false false)
     TimerInv armed ∧ (ngOnDestroy armed).pendingTimers = [] ∧
       (touchendBehavior armed).pendingTimers = []) := by
  refine ⟨Or.inr rfl, ?_, ?_⟩
  · exact (C6_teardown_cancels_timer _ (Or.inr rfl)).1
  · exact (C6_teardown_cancels_timer _ (Or.inr rfl)).2.2.1

/-- C7 counterexample: the claim that the stored references are nulled on hide
is false. On a touch-platform instance with template content, after show() and
hide() the panel node and the embedded view are destroyed, yet tooltipElRef,
embdedViewRef and cleanupFn still hold their old references. -/
theorem C7_references_not_nulled :
    (let final := run [DirEvent.afterViewInit, DirEvent.apiShow, DirEvent.apiHide]
      (initState TooltipTrigger.hover false false false false true)
     final.bodyPanels = [] ∧ final.liveViews = [] ∧ final.activeSubs = [] ∧
       final.tooltipElRef ≠ none ∧ final.embdedViewRef ≠ none ∧
       final.cleanupFn ≠ none) := by
  decide

/-- C7 (amended): teardown destroys the panel subtree and the views but keeps
the stale references; it is nonetheless idempotent on the state — destroy
composed with itself equals a single destroy — and safe when nothing was ever
created: on an instance whose references are all absent, destroy changes
nothing at all. -/
theorem C7_teardown_idempotent (s : DirState) :
    destroy (destroy s) = destroy s ∧
    ((s.tooltipElRef = none ∧ s.embdedViewRef = none ∧ s.componentRef = none ∧
        s.cleanupFn = none ∧ s.touchstartTimeout = none) →
      destroy s = s) := by
  refine ⟨destroy_destroy s, ?_⟩
  rintro ⟨h1, h2, h3, h4, h5⟩
  exact destroy_of_clean s h1 h2 h3 h4 h5

/-- Witness for C7 (amended) on a freshly created instance. -/
theorem C7_teardown_idempotent_witness :
    (destroy (destroy (initState TooltipTrigger.hover false false false true false)) =
      destroy (initState TooltipTrigger.hover false false false true false)) ∧
    destroy (initState TooltipTrigger.hover false false false true false) =
      initState TooltipTrigger.hover false false false true false :=
  ⟨(C7_teardown_idempotent _).1,
    (C7_teardown_idempotent
        (initState TooltipTrigger.hover false false false true false)).2
      ⟨rfl, rfl, rfl, rfl, rfl⟩⟩

/-- C8 counterexample: in the final directive revision, a component-class
content value is not instantiated as a component — it falls into the else
branch and is coerced to a string, with no environment-injector instantiation
and no attachment to the application view tree. -/
theorem C8_final_revision_coerces_component :
    (createElementContentV3 (TooltipContentVal.component 0)).componentCreated = false ∧
    (createElementContentV3 (TooltipContentVal.component 0)).textContentSet = true ∧
    (createElementContentV3 (TooltipContentVal.component 0)).usedEnvironmentInjector = false ∧
    (createElementContentV3 (TooltipContentVal.component 0)).attachedToApplicationRef = false :=
  ⟨rfl, rfl, rfl, rfl⟩

/-- C8 (amended): in the earlier revision, whose content type includes
component classes, a sub-component content value is instantiated with
createComponent against the application's environment injector, its hostView
is attached to the ApplicationRef, and its host element is appended into the
tooltip content element, with no string coercion; in the final revision the
same value is coerced to a string and no component is created. -/
theorem C8_component_content (k : Nat) :
    (createElementContentV2 (TooltipContentVal.component k)).componentCreated = true ∧
    (createElementContentV2 (TooltipContentVal.component k)).usedEnvironmentInjector = true ∧
    (createElementContentV2 (TooltipContentVal.component k)).attachedToApplicationRef = true ∧
    (createElementContentV2 (TooltipContentVal.component k)).hostElementAppendedToContent = true ∧
    (createElementContentV2 (TooltipContentVal.component k)).textContentSet = false ∧
    (createElementContentV3 (TooltipContentVal.component k)).componentCreated = false ∧
    (createElementContentV3 (TooltipContentVal.component k)).textContentSet = true :=
  ⟨rfl, rfl, rfl, rfl, rfl, rfl, rfl⟩

/-- C9 counterexample: the claim that native HTML drag is left enabled when
the trigger does not declare itself draggable is false: on a non-draggable DIV
trigger the directive sets webkit-user-drag to none (the code disables drag
exactly when the element is NOT draggable). -/
theorem C9_nondraggable_gets_drag_disabled :
    untouchedStyle.webkitUserDrag = none ∧
    (disableNativeGestures { nodeName := "DIV", draggable := false }
        untouchedStyle).webkitUserDrag = some "none" :=
  ⟨rfl, rfl⟩

/-- C9 (amended): disableNativeGestures sets the four user-select vendor
variants to none unless the trigger is an INPUT or TEXTAREA (whose selection
style is left untouched), sets webkit-user-drag to none exactly when the
trigger is not draggable (a draggable trigger keeps its native drag), and
always sets touch-action to none and webkit-tap-highlight-color to
transparent. -/
theorem C9_gesture_overrides (el : TriggerEl) (st : GestureStyle) :
    ((el.nodeName = "INPUT" ∨ el.nodeName = "TEXTAREA") →
      (disableNativeGestures el st).userSelect = st.userSelect ∧
      (disableNativeGestures el st).msUserSelect = st.msUserSelect ∧
      (disableNativeGestures el st).webkitUserSelect = st.webkitUserSelect ∧
      (disableNativeGestures el st).MozUserSelect = st.MozUserSelect) ∧
    (¬(el.nodeName = "INPUT" ∨ el.nodeName = "TEXTAREA") →
      (disableNativeGestures el st).userSelect = some "none" ∧
      (disableNativeGestures el st).msUserSelect = some "none" ∧
      (disableNativeGestures el st).webkitUserSelect = some "none" ∧
      (disableNativeGestures el st).MozUserSelect = some "none") ∧
    (el.draggable = false →
      (disableNativeGestures el st).webkitUserDrag = some "none") ∧
    (el.draggable = true →
      (disableNativeGestures el st).webkitUserDrag = st.webkitUserDrag) ∧
    (disableNativeGestures el st).touchAction = some "none" ∧
    (disableNativeGestures el st).webkitTapHighlightColor = some "transparent" := by
  unfold disableNativeGestures
  dsimp only
  split_ifs with h1 h2 <;>
    refine ⟨fun hin => ?_, fun hnin => ?_, fun hd => ?_, fun hnd => ?_, rfl, rfl⟩ <;>
    first
      | exact ⟨rfl, rfl, rfl, rfl⟩
      | rfl
      | simp_all

/-- Witness for C9 (amended) on a non-draggable DIV trigger. -/
theorem C9_gesture_overrides_witness :
    ¬(("DIV" : String) = "INPUT" ∨ ("DIV" : String) = "TEXTAREA") ∧
    (disableNativeGestures { nodeName := "DIV", draggable := false }
        untouchedStyle).userSelect = some "none" ∧
    (disableNativeGestures { nodeName := "DIV", draggable := false }
        untouchedStyle).webkitUserDrag = some "none" ∧
    (disableNativeGestures { nodeName := "DIV", draggable := false }
        untouchedStyle).touchAction = some "none" :=
  ⟨by decide,
    ((C9_gesture_overrides { nodeName := "DIV", draggable := false }
        untouchedStyle).2.1 (by decide)).1,
    (C9_gesture_overrides { nodeName := "DIV", draggable := false }
        untouchedStyle).2.2.1 rfl,
    (C9_gesture_overrides { nodeName := "DIV", draggable := false }
        untouchedStyle).2.2.2.2.1⟩

/-! ### Server-platform inertness (support for C10) -/

theorem show_preserves_env (s : DirState) :
    («show» s).isServer = s.isServer ∧ («show» s).attached = s.attached ∧
    («show» s).eventListeners = s.eventListeners ∧
    («show» s).manual = s.manual ∧ («show» s).disabled = s.disabled := by
  by_cases v : s.isVisible
  · simp [«show», v]
  · simp only [«show», v, Bool.false_eq_true, if_false, render, createElement, destroy]
    split <;> exact ⟨rfl, rfl, rfl, rfl, rfl⟩

theorem hide_preserves_env (s : DirState) :
    (hide s).isServer = s.isServer ∧ (hide s).attached = s.attached ∧
    (hide s).eventListeners = s.eventListeners ∧
    (hide s).manual = s.manual ∧ (hide s).disabled = s.disabled := by
  by_cases v : s.isVisible
  · simp [hide, v, destroy]
  · simp [hide, v]

theorem show_pendingTimers_of_nil (s : DirState) (hp : s.pendingTimers = []) :
    («show» s).pendingTimers = [] := by
  by_cases v : s.isVisible
  · simp [«show», v, hp]
  · simp only [«show», v, Bool.false_eq_true, if_false]
    rw [render_pendingTimers]
    show removeOpt _ s.pendingTimers = []
    rw [hp]
    exact removeOpt_nil _

theorem hide_pendingTimers_of_nil (s : DirState) (hp : s.pendingTimers = []) :
    (hide s).pendingTimers = [] := by
  by_cases v : s.isVisible
  · simp only [hide, v, if_true]
    show removeOpt _ s.pendingTimers = []
    rw [hp]
    exact removeOpt_nil _
  · simp [hide, v, hp]

theorem domEvent_of_no_attached (s : DirState) (n : String) (over : Bool)
    (ha : s.attached = []) : domEvent n over s = s := by
  simp [domEvent, ha]

theorem fireTimer_of_no_pending (s : DirState) (t : Nat)
    (hp : s.pendingTimers = []) : fireTimer t s = s := by
  simp [fireTimer, hp]

theorem server_quiet_step (e : DirEvent) (s : DirState) (hs : s.isServer = true)
    (ha : s.attached = []) (he : s.eventListeners = [])
    (hp : s.pendingTimers = []) :
    (step e s).isServer = true ∧ (step e s).attached = [] ∧
    (step e s).eventListeners = [] ∧ (step e s).pendingTimers = [] ∧
    ((e ≠ DirEvent.apiShow ∧ e ≠ DirEvent.apiHide ∧ e ≠ DirEvent.apiToggle) →
      (step e s).isVisible = s.isVisible) := by
  cases e with
  | afterViewInit =>
    have key : step DirEvent.afterViewInit s = s := by
      show ngAfterViewInit s = s
      unfold ngAfterViewInit
      rw [if_pos (Or.inr (Or.inl hs))]
    rw [key]
    exact ⟨hs, ha, he, hp, fun _ => rfl⟩
  | changeDisabled v =>
    have key : step (DirEvent.changeDisabled v) s = { s with disabled := v } := by
      show ngOnChanges s v = _
      unfold ngOnChanges
      dsimp only
      rw [if_pos (Or.inr hs)]
    rw [key]
    exact ⟨hs, ha, he, hp, fun _ => rfl⟩
  | apiShow =>
    have h := show_preserves_env s
    exact ⟨h.1.trans hs, h.2.1.trans ha, h.2.2.1.trans he,
      show_pendingTimers_of_nil s hp, fun hne => absurd rfl hne.1⟩
  | apiHide =>
    have h := hide_preserves_env s
    exact ⟨h.1.trans hs, h.2.1.trans ha, h.2.2.1.trans he,
      hide_pendingTimers_of_nil s hp, fun hne => absurd rfl hne.2.1⟩
  | apiToggle =>
    by_cases v : s.isVisible
    · have key : step DirEvent.apiToggle s = hide s := by
        show toggle s = hide s
        unfold toggle
        rw [if_pos v]
      rw [key]
      have h := hide_preserves_env s
      exact ⟨h.1.trans hs, h.2.1.trans ha, h.2.2.1.trans he,
        hide_pendingTimers_of_nil s hp, fun hne => absurd rfl hne.2.2⟩
    · have key : step DirEvent.apiToggle s = «show» s := by
        show toggle s = «show» s
        unfold toggle
        rw [if_neg v]
      rw [key]
      have h := show_preserves_env s
      exact ⟨h.1.trans hs, h.2.1.trans ha, h.2.2.1.trans he,
        show_pendingTimers_of_nil s hp, fun hne => absurd rfl hne.2.2⟩
  | dom n over =>
    rw [show step (DirEvent.dom n over) s = domEvent n over s from rfl,
      domEvent_of_no_attached s n over ha]
    exact ⟨hs, ha, he, hp, fun _ => rfl⟩
  | timer t =>
    rw [show step (DirEvent.timer t) s = fireTimer t s from rfl,
      fireTimer_of_no_pending s t hp]
    exact ⟨hs, ha, he, hp, fun _ => rfl⟩
  | onDestroy =>
    have hat : (removeListeners (destroy s)).attached = [] := by
      show (destroy s).eventListeners.foldl _ (destroy s).attached = []
      rw [show (destroy s).eventListeners = ([] : List ListenerEntry) from he,
        show (destroy s).attached = ([] : List ListenerEntry) from ha]
      rfl
    have hpd : (removeListeners (destroy s)).pendingTimers = [] := by
      show removeOpt _ s.pendingTimers = []
      rw [hp]
      exact removeOpt_nil _
    exact ⟨hs, hat, he, hpd, fun _ => rfl⟩

/-- C10: on the server platform the directive is inert with respect to
gestures: whatever sequence of lifecycle hooks, DOM events, timer firings and
API calls occurs, no listener is ever recorded or attached and no timer is
ever armed; and if the sequence contains no explicit show/hide/toggle API
call, the visibility state never changes. -/
theorem C10_server_inert (evs : List DirEvent) (s : DirState)
    (hs : s.isServer = true) (ha : s.attached = []) (he : s.eventListeners = [])
    (hp : s.pendingTimers = []) :
    (run evs s).attached = [] ∧ (run evs s).eventListeners = [] ∧
    (run evs s).pendingTimers = [] ∧
    ((∀ e ∈ evs, e ≠ DirEvent.apiShow ∧ e ≠ DirEvent.apiHide ∧
        e ≠ DirEvent.apiToggle) → (run evs s).isVisible = s.isVisible) := by
  induction evs generalizing s with
  | nil => exact ⟨ha, he, hp, fun _ => rfl⟩
  | cons e l ih =>
    have hstep := server_quiet_step e s hs ha he hp
    have hrun := ih (step e s) hstep.1 hstep.2.1 hstep.2.2.1 hstep.2.2.2.1
    refine ⟨hrun.1, hrun.2.1, hrun.2.2.1, ?_⟩
    intro hall
    have h2 : (run l (step e s)).isVisible = (step e s).isVisible :=
      hrun.2.2.2 (fun x hx => hall x (List.mem_cons_of_mem e hx))
    have h3 := hstep.2.2.2.2 (hall e (List.mem_cons_self e l))
    exact h2.trans h3

/-- Witness for C10 on a server-platform instance through its whole
lifecycle. -/
theorem C10_server_inert_witness :
    (let s := initState TooltipTrigger.hover false false true true false
     let evs := [DirEvent.afterViewInit, DirEvent.dom "focus" true,
       DirEvent.changeDisabled true, DirEvent.changeDisabled false,
       DirEvent.dom "mouseenter" true, DirEvent.onDestroy]
     s.isServer = true ∧ s.attached = [] ∧ s.eventListeners = [] ∧
       s.pendingTimers = [] ∧ (run evs s).attached = [] ∧
       (run evs s).eventListeners = [] ∧
       (run evs s).isVisible = s.isVisible) := by
  refine ⟨rfl, rfl, rfl, rfl, ?_, ?_, ?_⟩
  · exact (C10_server_inert _ _ rfl rfl rfl rfl).1
  · exact (C10_server_inert _ _ rfl rfl rfl rfl).2.1
  · exact (C10_server_inert _ _ rfl rfl rfl rfl).2.2.2 (by decide)

end NgFloatingUi
